import Mathlib

/-!
Verification development for the `rust_embedding_lib` text-embedding engine.

The repository exposes a C calling convention surface (`init_model`,
`generate_embeddings`, `free_embeddings`) declared in
`src/rust_embedding_lib.h`, and a thin Objective-C bridge declared in
`src/bindings/objective-c/RustEmbeddingBridge.h`.  The engine behind the C
header (tokenizer, transformer encoder, pooling, global engine state) is not
present under `src/`; those parts are modelled here from the specification.
The process-wide lazily-initialized engine instance is embedded as explicit
state passing on an `EngineState` value, and the raw `float*` buffers handed
across the boundary are embedded as identified buffers tracked by a live-set,
so that release and double-release are observable in the model.
-/

namespace EmbedLib

/-- Modelled from the spec: semantic fields of the model configuration
(hidden size, layer count, head count, intermediate size, max sequence
length, activation kind).  `projDim` records the optional output projection
dimension declared by the configuration.  The Rust implementation behind
`src/rust_embedding_lib.h` is not in `src/`. -/
structure ModelConfig where
  hiddenSize : Nat
  numLayers : Nat
  numHeads : Nat
  intermediateSize : Nat
  maxSeqLen : Nat
  approximateGelu : Bool
  projDim : Option Nat
deriving Repr

/-- Modelled from the spec: output dimension of the configured pipeline —
the projection dimension when an output projection layer exists in the
configuration, the hidden size otherwise. -/
def ModelConfig.outputDim (cfg : ModelConfig) : Nat :=
  match cfg.projDim with
  | some d => d
  | none => cfg.hiddenSize

/-- Modelled from the spec: configuration consistency — all dimensions
positive and mutually consistent (hidden size divisible by head count),
with room in the sequence budget for the two reserved special-token slots. -/
def ModelConfig.consistent (cfg : ModelConfig) : Bool :=
  cfg.hiddenSize != 0 && cfg.numLayers != 0 && cfg.numHeads != 0 &&
  cfg.hiddenSize % cfg.numHeads == 0 && cfg.intermediateSize != 0 &&
  decide (2 ≤ cfg.maxSeqLen)

/-- Modelled from the spec: tokenizer artifact — vocabulary mapping from
token string to id plus the special-token ids (padding, unknown,
start, end).  Loaded once from a path; immutable thereafter. -/
structure TokenizerArtifact where
  vocab : List (String × Nat)
  padId : Nat
  unkId : Nat
  startId : Nat
  endId : Nat
deriving Repr

/-- Modelled from the spec: the special-token ids of an artifact. -/
def TokenizerArtifact.specialIds (art : TokenizerArtifact) : List Nat :=
  [art.padId, art.unkId, art.startId, art.endId]

/-- Modelled from the spec: vocabulary well-formedness — token ids are
unique. -/
def TokenizerArtifact.wellFormed (art : TokenizerArtifact) : Bool :=
  (art.vocab.map Prod.snd).eraseDups.length == art.vocab.length

/-- Helper for word splitting: accumulates the current word (reversed) and
emits it at whitespace boundaries. -/
def splitWordsAux : List Char → List Char → List (List Char)
  | [], acc => if acc.isEmpty then [] else [acc.reverse]
  | c :: cs, acc =>
    if c.isWhitespace then
      (if acc.isEmpty then splitWordsAux cs [] else acc.reverse :: splitWordsAux cs [])
    else
      splitWordsAux cs (c :: acc)

/-- Modelled from the spec: deterministic whitespace word splitting used by
the tokenizer model (the concrete subword algorithm is left to the
implementer by the spec; a word-level vocabulary lookup realizes the same
contract). -/
def splitWords (text : String) : List String :=
  (splitWordsAux text.data []).map List.asString

/-- Modelled from the spec: map one word through the artifact's vocabulary,
falling back to the unknown-token id. -/
def lookupTok (art : TokenizerArtifact) (w : String) : Nat :=
  match art.vocab.lookup w with
  | some i => i
  | none => art.unkId

/-- Modelled from the spec: content-token encoding — applies the artifact's
vocabulary deterministically to each word of the text. -/
def encode (art : TokenizerArtifact) (text : String) : List Nat :=
  (splitWords text).map (lookupTok art)

/-- Modelled from the spec: ordered token ids plus an attention mask of
equal length. -/
structure TokenizedInput where
  ids : List Nat
  mask : List Bool
deriving Repr

/-- Modelled from the spec: `tokenize(text) -> TokenizedInput`.  Two slots
are reserved for the start and end special tokens; content longer than
max length minus the reserved slots is truncated keeping the prefix, and
the sequence always terminates with the end-token id.  Pure function of the
artifact and the input. -/
def tokenize (art : TokenizerArtifact) (maxLen : Nat) (text : String) : TokenizedInput :=
  let kept := (encode art text).take (maxLen - 2)
  let ids := art.startId :: (kept ++ [art.endId])
  { ids := ids, mask := ids.map (fun _ => true) }

/-- Dot product of two float vectors (zips, so it consumes the common
length). -/
def dot (a b : List Float) : Float :=
  (a.zip b).foldl (fun acc p => acc + p.fst * p.snd) 0.0

/-- Matrix-vector product: one dot product per matrix row. -/
def matVec (m : List (List Float)) (v : List Float) : List Float :=
  m.map (fun row => dot row v)

/-- Componentwise vector addition. -/
def addVec (a b : List Float) : List Float :=
  List.zipWith (fun x y => x + y) a b

/-- Scale a vector by a scalar. -/
def scaleVec (s : Float) (v : List Float) : List Float :=
  v.map (fun x => s * x)

/-- Softmax over a list of scores. -/
def softmax (xs : List Float) : List Float :=
  let es := xs.map Float.exp
  let s := es.foldl (fun a b => a + b) 0.0
  es.map (fun e => e / s)

/-- Modelled from the spec: the closed-form tanh-based approximation of
GELU, selected when `approximate_gelu` is true. -/
def geluApprox (x : Float) : Float :=
  0.5 * x * (1.0 + Float.tanh (0.7978845608028654 * (x + 0.044715 * x * x * x)))

/-- Polynomial approximation of the error function (erf is not available as
a primitive here; no claim depends on activation values, only on the
deterministic selection between the two activation kinds). -/
def erfPoly (x : Float) : Float :=
  let t := 1.0 / (1.0 + 0.3275911 * Float.abs x)
  let y := 1.0 -
    (((((1.061405429 * t - 1.453152027) * t) + 1.421413741) * t - 0.284496736) * t
      + 0.254829592) * t * Float.exp (-(x * x))
  if x < 0.0 then -y else y

/-- Modelled from the spec: the exact erf-based GELU, selected when
`approximate_gelu` is false. -/
def geluExact (x : Float) : Float :=
  0.5 * x * (1.0 + erfPoly (x / 1.4142135623730951))

/-- Modelled from the spec: per-layer parameters of one transformer block —
attention projections and the feed-forward sublayer weights. -/
structure LayerParams where
  wq : List (List Float)
  wk : List (List Float)
  wv : List (List Float)
  wo : List (List Float)
  w1 : List (List Float)
  b1 : List Float
  w2 : List (List Float)
  b2 : List Float

/-- Modelled from the spec: the WeightSet-derived parameter set — token
embedding table, per-layer parameters, and the optional output projection
matrix. -/
structure Params where
  embed : List (List Float)
  layers : List LayerParams
  proj : Option (List (List Float))

/-- Modelled from the spec: shape validation of the parameter set against
the configuration (weight tensors must match every shape the config
implies; a mismatch is a load-time failure, never a runtime one). -/
def checkShapes (cfg : ModelConfig) (ps : Params) : Bool :=
  ps.embed.all (fun r => r.length == cfg.hiddenSize) &&
  (ps.layers.length == cfg.numLayers) &&
  ps.layers.all (fun l =>
    (l.wq.length == cfg.hiddenSize && l.wq.all (fun r => r.length == cfg.hiddenSize)) &&
    (l.wk.length == cfg.hiddenSize && l.wk.all (fun r => r.length == cfg.hiddenSize)) &&
    (l.wv.length == cfg.hiddenSize && l.wv.all (fun r => r.length == cfg.hiddenSize)) &&
    (l.wo.length == cfg.hiddenSize && l.wo.all (fun r => r.length == cfg.hiddenSize)) &&
    (l.w1.length == cfg.intermediateSize && l.w1.all (fun r => r.length == cfg.hiddenSize)) &&
    (l.b1.length == cfg.intermediateSize) &&
    (l.w2.length == cfg.hiddenSize && l.w2.all (fun r => r.length == cfg.intermediateSize)) &&
    (l.b2.length == cfg.hiddenSize))

/-- Modelled from the spec: consistency of the optional output projection —
present in the parameters exactly when declared in the configuration, with
matching dimensions. -/
def projCheck (cfg : ModelConfig) (ps : Params) : Bool :=
  match cfg.projDim, ps.proj with
  | some d, some m => (m.length == d) && m.all (fun r => r.length == cfg.hiddenSize)
  | none, none => true
  | _, _ => false

/-- Modelled from the spec: the full load-time validation of an assembled
pipeline. -/
def engineOk (cfg : ModelConfig) (art : TokenizerArtifact) (ps : Params) : Bool :=
  cfg.consistent && checkShapes cfg ps && projCheck cfg ps && art.wellFormed

/-- Modelled from the spec: the composed, ready-to-serve pipeline
{ModelConfig, TokenizerArtifact, WeightSet-derived parameters}.  The
validation invariant is carried in the structure: no partial EngineInstance
ever exists (loading is all-or-nothing). -/
structure EngineInstance where
  config : ModelConfig
  artifact : TokenizerArtifact
  params : Params
  hok : engineOk config artifact params = true

/-- Output dimension of an engine instance, read off its configuration. -/
def EngineInstance.outputDim (inst : EngineInstance) : Nat :=
  inst.config.outputDim

/-- Modelled from the spec: one transformer block — single-sequence
self-attention with residual, then the feed-forward sublayer with the
selected activation and residual.  (The spec leaves the precise encoder
variant to the implementer.) -/
def attnLayer (hidden : Nat) (act : Float → Float) (l : LayerParams)
    (hs : List (List Float)) : List (List Float) :=
  let qs := hs.map (matVec l.wq)
  let ks := hs.map (matVec l.wk)
  let vs := hs.map (matVec l.wv)
  let scale := Float.sqrt (Float.ofNat hidden)
  let ctxs := qs.map (fun q =>
    let scores := softmax (ks.map (fun k => dot q k / scale))
    (scores.zip vs).foldl (fun acc sv => addVec acc (scaleVec sv.fst sv.snd))
      (List.replicate hidden 0.0))
  let attnOut := List.zipWith addVec hs (ctxs.map (matVec l.wo))
  attnOut.map (fun h =>
    addVec h (addVec (matVec l.w2 ((addVec (matVec l.w1 h) l.b1).map act)) l.b2))

/-- Modelled from the spec: the encoder forward pass — token embedding
lookup followed by the stacked transformer blocks, with the activation
selected once by the `approximate_gelu` flag captured at load time. -/
def forward (inst : EngineInstance) (tin : TokenizedInput) : List (List Float) :=
  let zeroRow := List.replicate inst.config.hiddenSize 0.0
  let h0 := tin.ids.map (fun i => inst.params.embed.getD i zeroRow)
  let act := if inst.config.approximateGelu then geluApprox else geluExact
  inst.params.layers.foldl (fun hs l => attnLayer inst.config.hiddenSize act l hs) h0

/-- Rows of the hidden states kept by the attention mask (padding positions
excluded). -/
def maskedRows (hs : List (List Float)) (mask : List Bool) : List (List Float) :=
  ((hs.zip mask).filter (fun p => p.snd)).map (fun p => p.fst)

/-- Modelled from the spec: mask-weighted mean pooling — componentwise mean
over the non-padding positions; output length is the hidden size
regardless of the input length. -/
def pooled (hidden : Nat) (hs : List (List Float)) (mask : List Bool) : List Float :=
  let rows := maskedRows hs mask
  let n := Float.ofNat (max rows.length 1)
  (List.range hidden).map (fun j =>
    (rows.foldl (fun acc v => acc + v.getD j 0.0) 0.0) / n)

/-- Modelled from the spec: pooling followed by the output projection when
the configuration declares one. -/
def poolProject (inst : EngineInstance) (hs : List (List Float))
    (mask : List Bool) : List Float :=
  match inst.params.proj with
  | some m => matVec m (pooled inst.config.hiddenSize hs mask)
  | none => pooled inst.config.hiddenSize hs mask

/-- Modelled from the header's raw `const float*`: a freshly allocated
buffer handed across the boundary, identified so release is observable. -/
structure Buffer where
  id : Nat
  data : List Float

/-- Boundary result type of `src/rust_embedding_lib.h` lines 13-17: either
a valid (buffer, length) pair with no error, or a null buffer with zero
length and a non-null error string.  A null pointer is `none`. -/
structure EmbeddingResult where
  embeddings : Option Buffer
  len : Nat
  error : Option String

/-- Modelled from the spec: the process-wide engine state — the
lazily-initialized optional current instance (the header's `Lazy` global),
plus the allocator's next buffer id and the set of live buffer ids. -/
structure EngineState where
  inst? : Option EngineInstance
  nextId : Nat
  live : List Nat

/-- The state of a process in which no `init_model` call has succeeded. -/
def initialState : EngineState := { inst? := none, nextId := 0, live := [] }

/-- An error result at the boundary: null buffer, zero length, non-null
message. -/
def errResult (msg : String) : EmbeddingResult :=
  { embeddings := none, len := 0, error := some msg }

/-- The single error message reported whenever the engine is not ready. -/
def notInitMsg : String := "Model not initialized"

/-- A zeroed `EmbeddingResult` (all fields null/zero). -/
def zeroedResult : EmbeddingResult :=
  { embeddings := none, len := 0, error := none }

/-- Load failure kinds of the spec's model loader. -/
inductive LoadError
  | NotFound
  | Malformed
  | ReadFailure

/-- Modelled from the spec: the world of loadable artifacts — what each
path resolves to (the on-disk formats are an opaque loader dependency). -/
structure World where
  configAt : String → Except LoadError ModelConfig
  tokenizerAt : String → Except LoadError TokenizerArtifact
  paramsAt : String → Except LoadError Params

/-- Modelled from the spec: `load(configPath, tokenizerPath, weightsPath)`
— resolves the three artifacts, captures the activation flag in the
configuration, validates all shapes, and returns the assembled pipeline;
no partial instance is ever returned on failure. -/
def load (w : World) (cp tp wp : String) (approx : Bool) :
    Except LoadError EngineInstance := do
  let cfg0 ← w.configAt cp
  let art ← w.tokenizerAt tp
  let ps ← w.paramsAt wp
  let cfg := { cfg0 with approximateGelu := approx }
  if h : engineOk cfg art ps = true then
    .ok { config := cfg, artifact := art, params := ps, hok := h }
  else
    .error .Malformed

/-- Boundary entry point `init_model` of `src/rust_embedding_lib.h` lines
23-26, modelled from the spec with explicit state passing: performs the
load and, on success, installs the new instance as the process-wide current
instance, discarding any previous one; on failure returns false and leaves
the state untouched (best-effort swap). -/
def init_model (w : World) (st : EngineState) (cp tp wp : String)
    (approx : Bool) : Bool × EngineState :=
  match load w cp tp wp approx with
  | .ok inst => (true, { st with inst? := some inst })
  | .error _ => (false, st)

/-- Boundary entry point `generate_embeddings` of
`src/rust_embedding_lib.h` line 28, modelled from the spec: requires an
installed instance; runs tokenize, the encoder forward pass, and pooling;
returns a success result with a freshly allocated buffer, or the
"not initialized" error result when no instance is installed.  (Input text
is a Lean `String`, hence valid UTF-8 by construction; the header's
invalid-byte rejection happens at marshaling, outside this model.) -/
def generate_embeddings (st : EngineState) (text : String) :
    EmbeddingResult × EngineState :=
  match st.inst? with
  | none => (errResult notInitMsg, st)
  | some inst =>
    let tin := tokenize inst.artifact inst.config.maxSeqLen text
    let hs := forward inst tin
    let vec := poolProject inst hs tin.mask
    ({ embeddings := some { id := st.nextId, data := vec },
       len := vec.length, error := none },
     { st with nextId := st.nextId + 1, live := st.nextId :: st.live })

/-- Boundary entry point `free_embeddings` of `src/rust_embedding_lib.h`
line 30, modelled from the spec: a null buffer (zeroed or error result) is
accepted without fault; releasing a live buffer removes it from the live
set; releasing anything else (double free) is the undefined case, `none`. -/
def free_embeddings (st : EngineState) (r : EmbeddingResult) :
    Option EngineState :=
  match r.embeddings with
  | none => some st
  | some b =>
    if b.id ∈ st.live then some { st with live := st.live.erase b.id }
    else none

/-- Objective-C bridge method declared at
`src/bindings/objective-c/RustEmbeddingBridge.h` lines 7-10: its return
type is `void`, so the boolean produced by the underlying `init_model`
call is discarded at the bridge interface. -/
def initModelWithConfigPath (w : World) (st : EngineState)
    (cp tp wp : String) (approx : Bool) : Unit × EngineState :=
  let r := init_model w st cp tp wp approx
  ((), r.snd)

/-- Success state of a boundary result relative to an output dimension:
non-null buffer, length equal to the dimension, null error. -/
def isSuccess (r : EmbeddingResult) (dim : Nat) : Prop :=
  r.embeddings.isSome = true ∧ r.len = dim ∧ r.error = none

/-- Failure state of a boundary result: null buffer, zero length, non-null
error. -/
def isFailure (r : EmbeddingResult) : Prop :=
  r.embeddings = none ∧ r.len = 0 ∧ r.error.isSome = true

/-- A tiny concrete configuration used to evaluate the model at concrete
inputs. -/
def cfg0 : ModelConfig :=
  { hiddenSize := 2, numLayers := 1, numHeads := 1, intermediateSize := 2,
    maxSeqLen := 8, approximateGelu := false, projDim := none }

/-- The single vocabulary word of the concrete artifact. -/
def wordA : String := "a"

/-- A tiny concrete tokenizer artifact. -/
def art0 : TokenizerArtifact :=
  { vocab := [(wordA, 0)], padId := 10, unkId := 11, startId := 12, endId := 13 }

/-- A tiny concrete transformer block (all-zero weights; only shapes
matter to the claims). -/
def layer0 : LayerParams :=
  { wq := [[0.0, 0.0], [0.0, 0.0]], wk := [[0.0, 0.0], [0.0, 0.0]],
    wv := [[0.0, 0.0], [0.0, 0.0]], wo := [[0.0, 0.0], [0.0, 0.0]],
    w1 := [[0.0, 0.0], [0.0, 0.0]], b1 := [0.0, 0.0],
    w2 := [[0.0, 0.0], [0.0, 0.0]], b2 := [0.0, 0.0] }

/-- A tiny concrete parameter set matching `cfg0`. -/
def params0 : Params :=
  { embed := [[0.0, 0.0]], layers := [layer0], proj := none }

/-- A concrete assembled engine instance. -/
def instI : EngineInstance :=
  { config := cfg0, artifact := art0, params := params0, hok := by decide }

/-- A concrete engine state holding `instI`. -/
def stI : EngineState := { inst? := some instI, nextId := 0, live := [] }

/-- A world in which every path resolves to the tiny valid artifacts. -/
def goodWorld : World :=
  { configAt := fun _ => .ok cfg0,
    tokenizerAt := fun _ => .ok art0,
    paramsAt := fun _ => .ok params0 }

/-- A world in which no path resolves (every load fails). -/
def badWorld : World :=
  { configAt := fun _ => .error .NotFound,
    tokenizerAt := fun _ => .error .NotFound,
    paramsAt := fun _ => .error .NotFound }

/-- Concrete path and text arguments for concrete evaluations. -/
def pathC : String := "model.json"

/-- Concrete tokenizer path. -/
def pathT : String := "tok.json"

/-- Concrete weights path. -/
def pathW : String := "model.bin"

/-- A concrete input text. -/
def textHello : String := "hello world"

/-- A second concrete input text. -/
def textOther : String := "other text"

/-- The empty input text. -/
def emptyText : String := ""

/-- A concrete text of five vocabulary words, longer than a max length of
four once the two special-token slots are reserved. -/
def textLong : String := "a a a a a"

/-- Shape lemma: the pooled (and optionally projected) vector always has
the configured output dimension, using the shape invariant carried by the
engine instance. -/
theorem poolProject_length (inst : EngineInstance) (hs : List (List Float))
    (mask : List Bool) :
    (poolProject inst hs mask).length = inst.outputDim := by
  have h := inst.hok
  simp only [engineOk, Bool.and_eq_true] at h
  obtain ⟨⟨⟨-, -⟩, hp⟩, -⟩ := h
  cases hd : inst.config.projDim with
  | none =>
    cases hp2 : inst.params.proj with
    | none =>
      simp [poolProject, EngineInstance.outputDim, ModelConfig.outputDim, hd,
        hp2, pooled]
    | some m => simp [projCheck, hd, hp2] at hp
  | some d =>
    cases hp2 : inst.params.proj with
    | none => simp [projCheck, hd, hp2] at hp
    | some m =>
      simp only [projCheck, hd, hp2, Bool.and_eq_true, beq_iff_eq] at hp
      simp [poolProject, EngineInstance.outputDim, ModelConfig.outputDim, hd,
        hp2, matVec, hp.1]

/-- Claim C1: for every input text, the result of `generate_embeddings` is
in exactly one of the two states — success (non-null buffer, length equal
to the configured output dimension, null error) when an instance is
installed, or failure (null buffer, zero length, non-null error) when not
— never both and never neither. -/
theorem C1_result_exclusive (st : EngineState) (text : String) :
    (∃ inst, st.inst? = some inst ∧
      isSuccess (generate_embeddings st text).fst inst.outputDim ∧
      ¬ isFailure (generate_embeddings st text).fst) ∨
    (st.inst? = none ∧ isFailure (generate_embeddings st text).fst ∧
      ∀ d, ¬ isSuccess (generate_embeddings st text).fst d) := by
  cases h : st.inst? with
  | none =>
    right
    refine ⟨rfl, ?_, ?_⟩ <;>
      simp [generate_embeddings, h, errResult, isFailure, isSuccess]
  | some inst =>
    left
    refine ⟨inst, rfl, ⟨?_, ?_, ?_⟩, ?_⟩ <;>
      simp [generate_embeddings, h, isSuccess, isFailure, poolProject_length]

/-- Instantiation of C1 at a concrete state and text. -/
theorem C1_result_exclusive_witness :
    (∃ inst, stI.inst? = some inst ∧
      isSuccess (generate_embeddings stI textHello).fst inst.outputDim ∧
      ¬ isFailure (generate_embeddings stI textHello).fst) ∨
    (stI.inst? = none ∧ isFailure (generate_embeddings stI textHello).fst ∧
      ∀ d, ¬ isSuccess (generate_embeddings stI textHello).fst d) :=
  C1_result_exclusive stI textHello

/-- Claim C2: before any successful `init_model`, every
`generate_embeddings` call returns the "not initialized" error result
(null buffer, zero length, non-null message), and repeated calls against
the not-ready engine return the very same error result. -/
theorem C2_uninitialized (st : EngineState) (t1 t2 : String)
    (h : st.inst? = none) :
    (generate_embeddings st t1).fst = errResult notInitMsg ∧
    (generate_embeddings st t1).fst.embeddings = none ∧
    (generate_embeddings st t1).fst.len = 0 ∧
    (generate_embeddings st t1).fst.error = some notInitMsg ∧
    (generate_embeddings (generate_embeddings st t1).snd t2).fst =
      (generate_embeddings st t1).fst := by
  simp [generate_embeddings, h, errResult]

/-- Instantiation of C2 at the fresh process state with its hypothesis
discharged by `rfl`. -/
theorem C2_uninitialized_witness :
    initialState.inst? = none ∧
    (generate_embeddings initialState textHello).fst = errResult notInitMsg ∧
    (generate_embeddings (generate_embeddings initialState textHello).snd
      textOther).fst = (generate_embeddings initialState textHello).fst :=
  ⟨rfl, (C2_uninitialized initialState textHello textOther rfl).1,
    (C2_uninitialized initialState textHello textOther rfl).2.2.2.2⟩

/-- Counterexample to C3 as stated: with an instance already installed and
a failing load, `init_model` returns false while an EngineInstance is
still installed afterwards, so "returns true iff an EngineInstance is
installed afterwards" fails. -/
theorem C3_counterexample :
    ¬ (((init_model badWorld stI pathC pathT pathW false).fst = true) ↔
       ((init_model badWorld stI pathC pathT pathW false).snd.inst?.isSome = true)) := by
  decide

/-- Claim C3 (amended): `init_model` returns true iff the load succeeded,
in which case the newly loaded instance is installed; on failure it
returns false and the whole state — in particular any previously installed
instance — is left unchanged (best-effort swap, not clear-then-load). -/
theorem C3_amended_swap (w : World) (st : EngineState) (cp tp wp : String)
    (a : Bool) :
    ((init_model w st cp tp wp a).fst = true ↔
      ∃ inst, load w cp tp wp a = Except.ok inst) ∧
    (∀ inst, load w cp tp wp a = Except.ok inst →
      (init_model w st cp tp wp a).snd.inst? = some inst) ∧
    ((init_model w st cp tp wp a).fst = false →
      (init_model w st cp tp wp a).snd = st) := by
  cases hl : load w cp tp wp a with
  | ok inst => simp [init_model, hl]
  | error e => simp [init_model, hl]

/-- Instantiation of C3 (amended) at concrete worlds and state. -/
theorem C3_amended_swap_witness :
    (((init_model badWorld stI pathC pathT pathW false).fst = false →
      (init_model badWorld stI pathC pathT pathW false).snd = stI)) ∧
    (init_model badWorld stI pathC pathT pathW false).fst = false ∧
    (init_model badWorld stI pathC pathT pathW false).snd = stI :=
  ⟨(C3_amended_swap badWorld stI pathC pathT pathW false).2.2, rfl,
    (C3_amended_swap badWorld stI pathC pathT pathW false).2.2 rfl⟩

/-- Claim C4: for every input text (including the empty string), a call
against an installed instance returns a result whose length equals the
configuration's fixed output dimension, regardless of the text. -/
theorem C4_shape (st : EngineState) (inst : EngineInstance) (text : String)
    (h : st.inst? = some inst) :
    (generate_embeddings st text).fst.len = inst.outputDim := by
  simp [generate_embeddings, h, poolProject_length]

/-- Instantiation of C4 at a concrete instance, on the empty string and on
a longer text, with its hypothesis discharged by `rfl`. -/
theorem C4_shape_witness :
    stI.inst? = some instI ∧
    (generate_embeddings stI emptyText).fst.len = instI.outputDim ∧
    (generate_embeddings stI textHello).fst.len = instI.outputDim ∧
    instI.outputDim = 2 :=
  ⟨rfl, C4_shape stI instI emptyText rfl, C4_shape stI instI textHello rfl, rfl⟩

/-- Claim C5: against a fixed installed instance, two consecutive
`generate_embeddings` calls with identical text produce identical output
vectors, and the call leaves the installed instance untouched (the
pipeline is a pure function of the instance and the input). -/
theorem C5_deterministic (st : EngineState) (inst : EngineInstance)
    (t : String) (h : st.inst? = some inst) :
    ((generate_embeddings st t).fst.embeddings.map Buffer.data =
      (generate_embeddings (generate_embeddings st t).snd t).fst.embeddings.map
        Buffer.data) ∧
    (generate_embeddings st t).snd.inst? = st.inst? := by
  simp [generate_embeddings, h]

/-- Instantiation of C5 at a concrete instance and text, with its
hypothesis discharged by `rfl`. -/
theorem C5_deterministic_witness :
    stI.inst? = some instI ∧
    ((generate_embeddings stI textHello).fst.embeddings.map Buffer.data =
      (generate_embeddings (generate_embeddings stI textHello).snd
        textHello).fst.embeddings.map Buffer.data) :=
  ⟨rfl, (C5_deterministic stI instI textHello rfl).1⟩

/-- Claim C6: a text whose content tokenization overflows the max sequence
length is truncated deterministically — the kept content is a prefix of
the full token sequence of length max-length-minus-two (the reserved
special-token slots), the whole sequence has exactly max length, and it
terminates with the end-token id. -/
theorem C6_truncation (art : TokenizerArtifact) (maxLen : Nat) (text : String)
    (h2 : 2 ≤ maxLen) (hlong : maxLen < (encode art text).length + 2) :
    (tokenize art maxLen text).ids.length = maxLen ∧
    (∃ kept rest, encode art text = kept ++ rest ∧
      (tokenize art maxLen text).ids = art.startId :: (kept ++ [art.endId]) ∧
      kept.length = maxLen - 2) ∧
    (tokenize art maxLen text).ids.getLast? = some art.endId := by
  have hmin : maxLen - 2 ≤ (encode art text).length := by omega
  refine ⟨?_, ⟨(encode art text).take (maxLen - 2),
    (encode art text).drop (maxLen - 2), ?_, ?_, ?_⟩, ?_⟩
  · simp [tokenize, List.length_take, Nat.min_eq_left hmin]
    omega
  · exact (List.take_append_drop _ _).symm
  · rfl
  · simp [List.length_take, Nat.min_eq_left hmin]
  · have hsplit : (tokenize art maxLen text).ids =
        (art.startId :: (encode art text).take (maxLen - 2)).concat art.endId := by
      simp [tokenize, List.concat_eq_append]
    rw [hsplit, List.concat_eq_append, List.getLast?_concat]

/-- Instantiation of C6: with max length four, a five-word text is cut to
two content tokens between the start and end tokens. -/
theorem C6_truncation_witness :
    (2 ≤ 4 ∧ 4 < (encode art0 textLong).length + 2) ∧
    ((tokenize art0 4 textLong).ids.length = 4 ∧
     (∃ kept rest, encode art0 textLong = kept ++ rest ∧
       (tokenize art0 4 textLong).ids = art0.startId :: (kept ++ [art0.endId]) ∧
       kept.length = 4 - 2) ∧
     (tokenize art0 4 textLong).ids.getLast? = some art0.endId) :=
  ⟨⟨by decide, by decide⟩,
    C6_truncation art0 4 textLong (by decide) (by decide)⟩

/-- Claim C7: tokenizing the empty string never errors and yields a
sequence containing only special tokens (the start and end ids); being a
plain function of the artifact and the input, `tokenize` is pure and
total. -/
theorem C7_empty_text (art : TokenizerArtifact) (maxLen : Nat) :
    (tokenize art maxLen emptyText).ids = [art.startId, art.endId] ∧
    art.startId ∈ art.specialIds ∧ art.endId ∈ art.specialIds := by
  have he : encode art emptyText = [] := rfl
  refine ⟨?_, ?_, ?_⟩
  · simp [tokenize, he, List.take_nil]
  · simp [TokenizerArtifact.specialIds]
  · simp [TokenizerArtifact.specialIds]

/-- Instantiation of C7 at the concrete artifact. -/
theorem C7_empty_text_witness :
    (tokenize art0 4 emptyText).ids = [art0.startId, art0.endId] ∧
    art0.startId ∈ art0.specialIds ∧ art0.endId ∈ art0.specialIds :=
  C7_empty_text art0 4

/-- Claim C8: `free_embeddings` accepts a zeroed result and any error
result (null buffer) without fault, and releasing a success result freshly
returned by `generate_embeddings` does not fault either. -/
theorem C8_free_safety :
    (∀ st : EngineState, free_embeddings st zeroedResult = some st) ∧
    (∀ (st : EngineState) (r : EmbeddingResult), r.embeddings = none →
      free_embeddings st r = some st) ∧
    (∀ (st : EngineState) (t : String), st.inst?.isSome = true →
      (free_embeddings (generate_embeddings st t).snd
        (generate_embeddings st t).fst).isSome = true) := by
  refine ⟨fun st => rfl, fun st r h => ?_, fun st t h => ?_⟩
  · simp [free_embeddings, h]
  · cases hi : st.inst? with
    | none => simp [hi] at h
    | some inst =>
      simp [generate_embeddings, hi, free_embeddings, List.mem_cons_self]

/-- Instantiation of C8 at a zeroed result and at a concrete success
result, with its hypotheses discharged by `rfl`. -/
theorem C8_free_safety_witness :
    free_embeddings initialState zeroedResult = some initialState ∧
    stI.inst?.isSome = true ∧
    (free_embeddings (generate_embeddings stI textHello).snd
      (generate_embeddings stI textHello).fst).isSome = true :=
  ⟨C8_free_safety.1 initialState, rfl, C8_free_safety.2.2 stI textHello rfl⟩

/-- Claim C10: the Objective-C bridge method for initialization is
declared void, so its returned value is the same whatever the underlying
`init_model` outcome — a caller through the bridge cannot observe success
or failure; the bridge still performs the state transition of
`init_model`. -/
theorem C10_bridge_discards (w w2 : World) (st st2 : EngineState)
    (cp tp wp cp2 tp2 wp2 : String) (a a2 : Bool) :
    (initModelWithConfigPath w st cp tp wp a).fst =
      (initModelWithConfigPath w2 st2 cp2 tp2 wp2 a2).fst ∧
    (initModelWithConfigPath w st cp tp wp a).snd =
      (init_model w st cp tp wp a).snd :=
  ⟨rfl, rfl⟩

/-- Instantiation of C10: the underlying `init_model` results differ
(success versus failure) while the bridge return values are equal. -/
theorem C10_bridge_discards_witness :
    (init_model goodWorld initialState pathC pathT pathW false).fst = true ∧
    (init_model badWorld initialState pathC pathT pathW false).fst = false ∧
    (initModelWithConfigPath goodWorld initialState pathC pathT pathW false).fst =
      (initModelWithConfigPath badWorld initialState pathC pathT pathW false).fst :=
  ⟨by decide, by decide,
    (C10_bridge_discards goodWorld badWorld initialState initialState
      pathC pathT pathW pathC pathT pathW false false).1⟩

end EmbedLib
